import Mathlib

/-!
# Endpoint Security extension (`Extension/main.c`): authorization decisions

A shallow embedding of the event handlers of `Extension/main.c` and theorems
about the decisions they send.

Modelling conventions

* A C pointer to bytes is a function `Nat → Nat`: `p i` is the byte stored at
  offset `i` from the pointer.  An `es_string_token_t` is a `length` together
  with such a pointer, so the byte stored right after the token is part of the
  input, exactly as it is for the C code.
* The operating system (`open`, `read`, `task_for_pid`, the uninitialised
  content of a stack buffer) is an explicit parameter `OS`.
* A handler returns the list of externally visible effects it performs, in
  program order.  `dispatch_async` is the effect-free enqueueing of a block;
  the queue is part of the handler's outcome and is run by `run_to_completion`.
* `sizeof` of a pointer is 8: the EndpointSecurity framework exists only on
  64-bit (LP64) macOS.
* `FWRITE` comes from `<sys/fcntl.h>`, which is not part of the repository
  sources; the handlers take its value as a parameter.
-/

namespace Extension

/-! ## C strings and memory -/

/-- A pointer to bytes: the byte at each offset. -/
abbrev Ptr := Nat → Nat

/-- Memory holding a C string literal: its bytes followed by the NUL terminator. -/
def cstr (bytes : List Nat) : Ptr := fun i => bytes.getD i 0

/-- The first `n` bytes stored at a pointer. -/
def bytes_at (p : Ptr) (n : Nat) : List Nat := (List.range n).map p

/-- C `strncmp`, started at offset `i`: compares at most `n` characters, stops
after a NUL, returns the difference of the first differing pair. -/
def strncmp_at (s1 s2 : Ptr) (i : Nat) : Nat → Int
  | 0 => 0
  | n + 1 =>
    if s1 i ≠ s2 i then (s1 i : Int) - (s2 i : Int)
    else if s1 i = 0 then 0
    else strncmp_at s1 s2 (i + 1) n

/-- C `strncmp(s1, s2, n)`. -/
def strncmp (s1 s2 : Ptr) (n : Nat) : Int := strncmp_at s1 s2 0 n

/-- C `memcmp`, started at offset `i`: compares exactly `n` bytes. -/
def memcmp_at (s1 s2 : Ptr) (i : Nat) : Nat → Int
  | 0 => 0
  | n + 1 =>
    if s1 i ≠ s2 i then (s1 i : Int) - (s2 i : Int)
    else memcmp_at s1 s2 (i + 1) n

/-- C `memcmp(s1, s2, n)`. -/
def memcmp (s1 s2 : Ptr) (n : Nat) : Int := memcmp_at s1 s2 0 n

/-- Result of `sizeof` applied to a pointer (LP64). -/
def sizeof_ptr : Nat := 8

/-! ## Endpoint Security data -/

/-- The type `es_string_token_t`: an explicit length and a pointer to the bytes. -/
structure es_string_token_t where
  length : Nat
  data : Ptr

/-- The C `struct stat`, reduced to the field the extension reads. -/
structure stat_t where
  st_size : Int

/-- The type `es_file_t`. -/
structure es_file_t where
  path : es_string_token_t
  stat : stat_t

/-- The type `es_process_t`; `pid` stands for `audit_token_to_pid(audit_token)`. -/
structure es_process_t where
  pid : Int
  signing_id : es_string_token_t
  executable : es_file_t

/-- The type `es_event_type_t`: the five subscribed kinds, and every other kind. -/
inductive es_event_type_t where
  | ES_EVENT_TYPE_AUTH_EXEC
  | ES_EVENT_TYPE_AUTH_OPEN
  | ES_EVENT_TYPE_NOTIFY_EXEC
  | ES_EVENT_TYPE_NOTIFY_FORK
  | ES_EVENT_TYPE_NOTIFY_EXIT
  | other (tag : Nat)
  deriving DecidableEq, Repr

/-- The type `es_action_type_t`. -/
inductive es_action_type_t where
  | ES_ACTION_TYPE_AUTH
  | ES_ACTION_TYPE_NOTIFY
  deriving DecidableEq, Repr

/-- The type `es_auth_result_t`. -/
inductive es_auth_result_t where
  | ES_AUTH_RESULT_ALLOW
  | ES_AUTH_RESULT_DENY
  deriving DecidableEq, Repr

/-- The type `es_message_t`.  The C `event` union is modelled by one field per member
the handlers read (`event.exec.target`, `event.open.file`, `event.fork.child`,
`event.exit.stat`). -/
structure es_message_t where
  event_type : es_event_type_t
  action_type : es_action_type_t
  process : es_process_t
  exec_target : es_process_t
  open_file : es_file_t
  fork_child : es_process_t
  exit_stat : Int

/-! ## Operating system and effects -/

/-- The system calls the handlers make.
* `open_rdonly p` is `open(p, O_RDONLY)`: a descriptor, negative on failure.
* `read fd count` is `none` when `read` returns `-1`, and otherwise the bytes
  it stored in the buffer (at most `count` of them are used).
* `uninit i` is the content of byte `i` of a stack buffer before it is written.
* `task_for_pid pid` is the returned `kern_return_t` and the task port. -/
structure OS where
  open_rdonly : Ptr → Int
  read : Int → Nat → Option (List Nat)
  uninit : Ptr
  task_for_pid : Int → Int × Nat

/-- Log records with their numeric arguments (the path strings are left out):
the two `task_for_pid` records of `handle_exec` and the three notify records. -/
inductive Log where
  | error (code : Int)
  | info (value : Int)
  | exec (pid : Int)
  | fork (pid : Int) (child : Int)
  | exit (pid : Int) (stat : Int)
  deriving DecidableEq, Repr

/-- Externally visible effects of a handler. -/
inductive Effect where
  | es_respond_auth_result (result : es_auth_result_t) (cache : Bool)
  | es_respond_flags_result (authorized_flags : Nat) (cache : Bool)
  | es_retain_message
  | es_release_message
  | os_log (record : Log)
  deriving DecidableEq, Repr

/-- Whether an effect is a response to the event source. -/
def Effect.is_response : Effect → Bool
  | .es_respond_auth_result _ _ => true
  | .es_respond_flags_result _ _ => true
  | _ => false

/-- The responses among a list of effects, in order. -/
def responses (es : List Effect) : List Effect := es.filter Effect.is_response

/-! ## `is_eicar_file` -/

/-- The bytes of the string literal `eicar` (the EICAR test string, 68 bytes). -/
def eicar : List Nat :=
  [88, 53, 79, 33, 80, 37, 64, 65, 80, 91, 52, 92, 80, 90, 88, 53, 52, 40, 80, 94,
   41, 55, 67, 67, 41, 55, 125, 36, 69, 73, 67, 65, 82, 45, 83, 84, 65, 78, 68, 65,
   82, 68, 45, 65, 78, 84, 73, 86, 73, 82, 85, 83, 45, 84, 69, 83, 84, 45, 70, 73,
   76, 69, 33, 36, 72, 43, 72, 42]

/-- The constant `eicar_length = sizeof(eicar) - 1`, where `eicar` is declared
`const char*`. -/
def eicar_length : Int := (sizeof_ptr : Int) - 1

/-- The constant `eicar_max_length = 128`. -/
def eicar_max_length : Int := 128

/-- Content of `buf` after `read(fd, buf, sizeof(buf))` stored `got`. -/
def buf_after_read (os : OS) (got : List Nat) : Ptr :=
  fun i => if i < got.length then got.getD i 0 else os.uninit i

/-- The function `is_eicar_file` of `main.c`.  The closing of the descriptor has no
bearing on the result and is left out. -/
def is_eicar_file (os : OS) (file : es_file_t) : Bool :=
  if eicar_length ≤ file.stat.st_size ∧ file.stat.st_size ≤ eicar_max_length then
    let fd := os.open_rdonly file.path.data
    if 0 ≤ fd then
      match os.read fd sizeof_ptr with
      | none => false
      | some stored =>
        let got := stored.take sizeof_ptr
        let bytes_read : Int := got.length
        if eicar_length ≤ bytes_read then
          if memcmp (buf_after_read os got) (cstr eicar) sizeof_ptr = 0 then true
          else false
        else false
    else false
  else false

/-! ## Handlers -/

/-- The bytes of `signing_id_to_block` without its terminator. -/
def signing_id_to_block : List Nat :=
  [99, 111, 109, 46, 97, 112, 112, 108, 101, 46, 84, 101, 120, 116, 69, 100, 105, 116]

/-- The value of `sizeof(signing_id_to_block)`: the array holds the bytes and the
terminator. -/
def sizeof_signing_id_to_block : Nat := signing_id_to_block.length + 1

/-- The function `handle_exec` of `main.c`. -/
def handle_exec (os : OS) (msg : es_message_t) : List Effect :=
  let current_signing_id := msg.exec_target.signing_id
  let pid := msg.exec_target.pid
  let r := os.task_for_pid pid
  let logged :=
    if r.1 ≠ 0 then Effect.os_log (Log.error r.1) else Effect.os_log (Log.info r.2)
  if current_signing_id.length = sizeof_signing_id_to_block - 1 ∧
      strncmp current_signing_id.data (cstr signing_id_to_block)
        sizeof_signing_id_to_block = 0 then
    [logged, Effect.es_respond_auth_result .ES_AUTH_RESULT_DENY true]
  else
    [logged, Effect.es_respond_auth_result .ES_AUTH_RESULT_ALLOW true]

/-- The bytes of the string literal `ro_prefix`. -/
def ro_prefix : List Nat :=
  [47, 117, 115, 114, 47, 108, 111, 99, 97, 108, 47, 98, 105, 110, 47]

/-- The constant `ro_prefix_length = sizeof(ro_prefix) - 1`, where `ro_prefix` is declared
`const char *`. -/
def ro_prefix_length : Nat := sizeof_ptr - 1

/-- C `~x` on a 32-bit operand. -/
def bnot32 (x : Nat) : Nat := 2 ^ 32 - 1 - x % 2 ^ 32

/-- The function `handle_open_worker` of `main.c`; `FWRITE` is the value of the
macro of that name. -/
def handle_open_worker (FWRITE : Nat) (os : OS) (msg : es_message_t) : List Effect :=
  if is_eicar_file os msg.open_file then
    [Effect.es_respond_flags_result 0 true]
  else if strncmp msg.open_file.path.data (cstr ro_prefix) ro_prefix_length = 0 then
    [Effect.es_respond_flags_result (0xffffffff &&& bnot32 FWRITE) true]
  else
    [Effect.es_respond_flags_result 0xffffffff true]

/-- What a handler leaves behind: the effects performed before it returns, and
the blocks it handed to `dispatch_async` (each block is identified by the
message it captured). -/
structure Outcome where
  effects : List Effect
  queue : List es_message_t

/-- The function `handle_open` of `main.c`: it retains the message and enqueues a
block. -/
def handle_open (msg : es_message_t) : Outcome :=
  { effects := [Effect.es_retain_message], queue := [msg] }

/-- The block `handle_open` enqueues: the worker, then the release of the message. -/
def open_block (FWRITE : Nat) (os : OS) (msg : es_message_t) : List Effect :=
  handle_open_worker FWRITE os msg ++ [Effect.es_release_message]

/-- The function `handle_notify_exec` of `main.c`. -/
def handle_notify_exec (msg : es_message_t) : List Effect :=
  [Effect.os_log (Log.exec msg.process.pid)]

/-- The function `handle_notify_fork` of `main.c`. -/
def handle_notify_fork (msg : es_message_t) : List Effect :=
  [Effect.os_log (Log.fork msg.process.pid msg.fork_child.pid)]

/-- The function `handle_notify_exit` of `main.c`. -/
def handle_notify_exit (msg : es_message_t) : List Effect :=
  [Effect.os_log (Log.exit msg.process.pid msg.exit_stat)]

/-- The function `handle_event` of `main.c`. -/
def handle_event (os : OS) (msg : es_message_t) : Outcome :=
  match msg.event_type with
  | .ES_EVENT_TYPE_AUTH_EXEC => { effects := handle_exec os msg, queue := [] }
  | .ES_EVENT_TYPE_AUTH_OPEN => handle_open msg
  | .ES_EVENT_TYPE_NOTIFY_EXEC => { effects := handle_notify_exec msg, queue := [] }
  | .ES_EVENT_TYPE_NOTIFY_FORK => { effects := handle_notify_fork msg, queue := [] }
  | .ES_EVENT_TYPE_NOTIFY_EXIT => { effects := handle_notify_exit msg, queue := [] }
  | .other _ =>
    if msg.action_type = .ES_ACTION_TYPE_AUTH then
      { effects := [Effect.es_respond_auth_result .ES_AUTH_RESULT_ALLOW true], queue := [] }
    else
      { effects := [], queue := [] }

/-- All effects of an outcome once every enqueued block has run. -/
def run_to_completion (FWRITE : Nat) (os : OS) (out : Outcome) : List Effect :=
  out.effects ++ out.queue.flatMap (open_block FWRITE os)

/-! ## Vocabulary of the specification and concrete inputs -/

/-- The bytes of an ASCII string. -/
def ascii (s : String) : List Nat := s.toList.map Char.toNat

/-- A token holding `bytes`, NUL-terminated in memory. -/
def token_of (bytes : List Nat) : es_string_token_t :=
  { length := bytes.length, data := cstr bytes }

/-- A length-delimited path begins with the byte string `pre`. -/
def path_begins_with (path : es_string_token_t) (pre : List Nat) : Bool :=
  decide (pre.length ≤ path.length) && (bytes_at path.data pre.length == pre)

/-- The kinds that require a response: `AUTH_EXEC`, `AUTH_OPEN`, and an
unrecognized kind whose action type is auth. -/
def is_auth_kind (msg : es_message_t) : Bool :=
  match msg.event_type with
  | .ES_EVENT_TYPE_AUTH_EXEC => true
  | .ES_EVENT_TYPE_AUTH_OPEN => true
  | .ES_EVENT_TYPE_NOTIFY_EXEC => false
  | .ES_EVENT_TYPE_NOTIFY_FORK => false
  | .ES_EVENT_TYPE_NOTIFY_EXIT => false
  | .other _ => decide (msg.action_type = .ES_ACTION_TYPE_AUTH)

/-- The file can be opened, and a `read` of `count` bytes from its start
delivers the first `count` bytes of `content`. -/
def readable_with_content (os : OS) (file : es_file_t) (content : List Nat) : Prop :=
  0 ≤ os.open_rdonly file.path.data ∧
    ∀ count, os.read (os.open_rdonly file.path.data) count = some (content.take count)

/-- An operating system in which every path opens and holds `content`. -/
def os_with_content (content : List Nat) : OS :=
  { open_rdonly := fun _ => 3
    read := fun _ count => some (content.take count)
    uninit := fun _ => 0
    task_for_pid := fun _ => (0, 0) }

/-- An operating system in which `open` fails. -/
def os_open_fails : OS :=
  { open_rdonly := fun _ => -1
    read := fun _ _ => none
    uninit := fun _ => 0
    task_for_pid := fun _ => (5, 0) }

/-- A process with no signing identifier and an empty path. -/
def unsigned_process : es_process_t :=
  { pid := 100, signing_id := token_of [], executable := ⟨token_of [], ⟨0⟩⟩ }

/-- An `AUTH_OPEN` message for a file at `path` of declared size `size`. -/
def open_msg (path : String) (size : Int) : es_message_t :=
  { event_type := .ES_EVENT_TYPE_AUTH_OPEN
    action_type := .ES_ACTION_TYPE_AUTH
    process := unsigned_process
    exec_target := unsigned_process
    open_file := ⟨token_of (ascii path), ⟨size⟩⟩
    fork_child := unsigned_process
    exit_stat := 0 }

/-- A message of a kind outside the five subscribed ones, action type auth. -/
def unrecognized_auth_msg : es_message_t :=
  { event_type := .other 42
    action_type := .ES_ACTION_TYPE_AUTH
    process := unsigned_process
    exec_target := unsigned_process
    open_file := ⟨token_of [], ⟨0⟩⟩
    fork_child := unsigned_process
    exit_stat := 0 }

/-- A 68-byte content that starts with `X5O!P%@A` and continues with 60 bytes `x`. -/
def short_match_content : List Nat := ascii "X5O!P%@A" ++ List.replicate 60 120

/-! ## The C comparison functions -/

theorem memcmp_at_eq_zero_iff (s1 s2 : Ptr) (n i : Nat) :
    memcmp_at s1 s2 i n = 0 ↔ ∀ j, j < n → s1 (i + j) = s2 (i + j) := by
  induction n generalizing i with
  | zero => simp [memcmp_at]
  | succ n ih =>
    unfold memcmp_at
    by_cases h : s1 i = s2 i
    · simp only [ne_eq, h, not_true_eq_false, if_false]
      rw [ih]
      constructor
      · intro hall j hj
        cases j with
        | zero => simpa using h
        | succ j =>
          have := hall j (by omega)
          simpa [Nat.add_assoc, Nat.add_comm 1 j] using this
      · intro hall j hj
        have := hall (j + 1) (by omega)
        simpa [Nat.add_assoc, Nat.add_comm 1 j] using this
    · simp only [ne_eq, h, not_false_eq_true, if_true]
      constructor
      · intro h0
        exact absurd (by omega) h
      · intro hall
        exact absurd (by simpa using hall 0 (by omega)) h

theorem strncmp_at_eq_zero_iff (s1 s2 : Ptr) (n i : Nat)
    (hnz : ∀ j, j < n - 1 → s2 (i + j) ≠ 0) :
    strncmp_at s1 s2 i n = 0 ↔ ∀ j, j < n → s1 (i + j) = s2 (i + j) := by
  induction n generalizing i with
  | zero => simp [strncmp_at]
  | succ n ih =>
    unfold strncmp_at
    by_cases h : s1 i = s2 i
    · simp only [ne_eq, h, not_true_eq_false, if_false]
      by_cases hz : s2 i = 0
      · have hn : n = 0 := by
          by_contra hne
          exact hnz 0 (by omega) (by simpa using hz)
        subst hn
        simp [hz, h]
      · simp only [hz, if_false]
        rw [ih (i + 1) (fun j hj => by
          have := hnz (j + 1) (by omega)
          simpa [Nat.add_assoc, Nat.add_comm 1 j] using this)]
        constructor
        · intro hall j hj
          cases j with
          | zero => simpa using h
          | succ j =>
            have := hall j (by omega)
            simpa [Nat.add_assoc, Nat.add_comm 1 j] using this
        · intro hall j hj
          have := hall (j + 1) (by omega)
          simpa [Nat.add_assoc, Nat.add_comm 1 j] using this
    · simp only [ne_eq, h, not_false_eq_true, if_true]
      constructor
      · intro h0
        exact absurd (by omega) h
      · intro hall
        exact absurd (by simpa using hall 0 (by omega)) h

theorem bytes_at_eq_iff (p q : Ptr) (n : Nat) :
    bytes_at p n = bytes_at q n ↔ ∀ j, j < n → p j = q j := by
  unfold bytes_at
  rw [List.map_inj_left]
  simp [List.mem_range]

/-- The path test of `handle_open_worker` succeeds exactly when the first
`sizeof(ro_prefix) - 1 = 7` bytes of the path are those of `"/usr/lo"`. -/
theorem ro_prefix_test_iff (p : Ptr) :
    strncmp p (cstr ro_prefix) ro_prefix_length = 0 ↔
      bytes_at p 7 = [47, 117, 115, 114, 47, 108, 111] := by
  have hb : bytes_at (cstr ro_prefix) 7 = [47, 117, 115, 114, 47, 108, 111] := by decide
  have hnz : ∀ j, j < ro_prefix_length - 1 → cstr ro_prefix (0 + j) ≠ 0 := by
    decide
  unfold strncmp
  rw [strncmp_at_eq_zero_iff _ _ _ _ hnz, ← hb]
  have : ro_prefix_length = 7 := rfl
  rw [this, bytes_at_eq_iff]
  simp

/-- The comparison of `handle_exec` succeeds exactly when the 18 bytes of the
token are those of the blocked identity and the byte after them is NUL. -/
theorem signing_id_test_iff (p : Ptr) :
    strncmp p (cstr signing_id_to_block) sizeof_signing_id_to_block = 0 ↔
      bytes_at p 18 = signing_id_to_block ∧ p 18 = 0 := by
  have hb : bytes_at (cstr signing_id_to_block) 18 = signing_id_to_block := by decide
  have hnz : ∀ j, j < sizeof_signing_id_to_block - 1 →
      cstr signing_id_to_block (0 + j) ≠ 0 := by
    decide
  unfold strncmp
  rw [strncmp_at_eq_zero_iff _ _ _ _ hnz]
  have h19 : sizeof_signing_id_to_block = 19 := rfl
  rw [h19]
  conv_rhs => rw [← hb, bytes_at_eq_iff]
  constructor
  · intro hall
    refine ⟨fun j hj => by simpa using hall j (by omega), ?_⟩
    have := hall 18 (by omega)
    simpa [cstr, signing_id_to_block] using this
  · rintro ⟨hall, h18⟩ j hj
    by_cases hj18 : j = 18
    · subst hj18
      simpa [cstr, signing_id_to_block] using h18
    · simpa using hall j (by omega)

/-- The buffer comparison of `is_eicar_file` succeeds exactly when the
`sizeof(eicar) = 8` bytes of the buffer are those of `"X5O!P%@A"`. -/
theorem eicar_test_iff (p : Ptr) :
    memcmp p (cstr eicar) sizeof_ptr = 0 ↔
      bytes_at p 8 = [88, 53, 79, 33, 80, 37, 64, 65] := by
  have hb : bytes_at (cstr eicar) 8 = [88, 53, 79, 33, 80, 37, 64, 65] := by decide
  unfold memcmp
  rw [memcmp_at_eq_zero_iff, ← hb]
  have : sizeof_ptr = 8 := rfl
  rw [this, bytes_at_eq_iff]
  simp


/-! ## Byte tables are the string literals of the source -/

theorem eicar_is_literal :
    eicar = ascii "X5O!P%@AP[4\\PZX54(P^)7CC)7\x7d$EICAR-STANDARD-ANTIVIRUS-TEST-FILE!$H+H*" ∧
      eicar.length = 68 := by
  decide

theorem signing_id_to_block_is_literal :
    signing_id_to_block = ascii "com.apple.TextEdit" ∧ signing_id_to_block.length = 18 := by
  decide

theorem ro_prefix_is_literal :
    ro_prefix = ascii "/usr/local/bin/" ∧ ro_prefix.length = 15 := by
  decide

/-! ## What the handlers compute -/

/-- The single response of `handle_exec`: `DENY` exactly when the token has
length 18, holds the blocked identity, and is followed by a NUL byte. -/
theorem handle_exec_responses (os : OS) (msg : es_message_t) :
    responses (handle_exec os msg) =
      [Effect.es_respond_auth_result
        (if msg.exec_target.signing_id.length = 18 ∧
            bytes_at msg.exec_target.signing_id.data 18 = signing_id_to_block ∧
            msg.exec_target.signing_id.data 18 = 0
          then .ES_AUTH_RESULT_DENY else .ES_AUTH_RESULT_ALLOW) true] := by
  have h18 : sizeof_signing_id_to_block - 1 = 18 := rfl
  unfold handle_exec
  simp only [signing_id_test_iff, h18]
  by_cases hc : msg.exec_target.signing_id.length = 18 ∧
      bytes_at msg.exec_target.signing_id.data 18 = signing_id_to_block ∧
      msg.exec_target.signing_id.data 18 = 0
  · rw [if_pos hc, if_pos hc]
    by_cases hs : (os.task_for_pid msg.exec_target.pid).1 ≠ 0 <;>
      simp [hs, responses, Effect.is_response]
  · rw [if_neg hc, if_neg hc]
    by_cases hs : (os.task_for_pid msg.exec_target.pid).1 ≠ 0 <;>
      simp [hs, responses, Effect.is_response]

/-- When it matches, `is_eicar_file` has seen a declared size in `[7, 128]`
and the 8 bytes `X5O!P%@A` in its buffer. -/
theorem is_eicar_file_true_iff (os : OS) (file : es_file_t) :
    is_eicar_file os file = true ↔
      (7 ≤ file.stat.st_size ∧ file.stat.st_size ≤ 128) ∧
      0 ≤ os.open_rdonly file.path.data ∧
      ∃ stored, os.read (os.open_rdonly file.path.data) 8 = some stored ∧
        7 ≤ (stored.take 8).length ∧
        bytes_at (buf_after_read os (stored.take 8)) 8 = [88, 53, 79, 33, 80, 37, 64, 65] := by
  have h7 : eicar_length = 7 := rfl
  have h128 : eicar_max_length = 128 := rfl
  have h8 : sizeof_ptr = 8 := rfl
  unfold is_eicar_file
  simp only [eicar_test_iff, h7, h128]
  rw [h8]
  by_cases hsz : 7 ≤ file.stat.st_size ∧ file.stat.st_size ≤ 128
  · rw [if_pos hsz]
    by_cases hfd : 0 ≤ os.open_rdonly file.path.data
    · simp only [hfd, if_true, hsz, true_and, and_self]
      cases hr : os.read (os.open_rdonly file.path.data) 8 with
      | none => simp
      | some stored =>
        simp only [Option.some.injEq, exists_eq_left']
        by_cases hlen : (7 : Int) ≤ ((stored.take 8).length : Int)
        · have hlen2 : 7 ≤ (stored.take 8).length := by exact_mod_cast hlen
          simp [hlen, hlen2]
        · have hlen2 : ¬ 7 ≤ (stored.take 8).length := by
            intro h
            exact hlen (by exact_mod_cast h)
          simp [hlen, hlen2]
    · simp [hfd]
  · simp [hsz]

/-- An `open` or `read` failure makes `is_eicar_file` answer "no match". -/
theorem is_eicar_file_io_failure (os : OS) (file : es_file_t)
    (hio : os.open_rdonly file.path.data < 0 ∨
      os.read (os.open_rdonly file.path.data) sizeof_ptr = none) :
    is_eicar_file os file = false := by
  cases hb : is_eicar_file os file with
  | false => rfl
  | true =>
    obtain ⟨_, hfd, stored, hread, _⟩ := (is_eicar_file_true_iff os file).mp hb
    have h8 : sizeof_ptr = 8 := rfl
    rw [h8] at hio
    rcases hio with hneg | hnone
    · omega
    · rw [hread] at hnone
      cases hnone

/-- A declared size outside `[7, 128]` makes `is_eicar_file` answer "no match". -/
theorem is_eicar_file_size_gate (os : OS) (file : es_file_t)
    (hsz : file.stat.st_size < 7 ∨ 128 < file.stat.st_size) :
    is_eicar_file os file = false := by
  cases hb : is_eicar_file os file with
  | false => rfl
  | true =>
    obtain ⟨⟨h1, h2⟩, _⟩ := (is_eicar_file_true_iff os file).mp hb
    omega

/-- The mask `0xffffffff & ~FWRITE` has no bit of `FWRITE` and every other bit. -/
theorem write_excluded_mask (FWRITE : Nat) (hF : FWRITE < 2 ^ 32) :
    (0xffffffff &&& bnot32 FWRITE) &&& FWRITE = 0 ∧
      (0xffffffff &&& bnot32 FWRITE) ||| FWRITE = 0xffffffff := by
  have hmod : FWRITE % 2 ^ 32 = FWRITE := Nat.mod_eq_of_lt hF
  have hnot : bnot32 FWRITE = 2 ^ 32 - (FWRITE + 1) := by
    unfold bnot32
    rw [hmod]
    omega
  have hall : (0xffffffff : Nat) = 2 ^ 32 - 1 := by norm_num
  have hhigh : ∀ i, 32 ≤ i → FWRITE.testBit i = false := by
    intro i hi
    apply Nat.testBit_lt_two_pow
    calc FWRITE < 2 ^ 32 := hF
      _ ≤ 2 ^ i := Nat.pow_le_pow_right (by norm_num) hi
  rw [hnot, hall]
  constructor
  · apply Nat.eq_of_testBit_eq
    intro i
    rw [Nat.testBit_and, Nat.testBit_and, Nat.testBit_two_pow_sub_succ hF,
      Nat.testBit_two_pow_sub_one, Nat.zero_testBit]
    cases FWRITE.testBit i <;> simp
  · apply Nat.eq_of_testBit_eq
    intro i
    rw [Nat.testBit_or, Nat.testBit_and, Nat.testBit_two_pow_sub_succ hF,
      Nat.testBit_two_pow_sub_one]
    by_cases hi : i < 32
    · cases FWRITE.testBit i <;> simp [hi]
    · simp [hi, hhigh i (by omega)]

/-- A path that begins with `/usr/local/bin/` passes the path test of
`handle_open_worker`. -/
theorem ro_prefix_test_of_begins_with (path : es_string_token_t)
    (hp : path_begins_with path ro_prefix = true) :
    strncmp path.data (cstr ro_prefix) ro_prefix_length = 0 := by
  rw [ro_prefix_test_iff]
  have hb : bytes_at (cstr ro_prefix) 15 = ro_prefix := by decide
  have hb7 : bytes_at (cstr ro_prefix) 7 = [47, 117, 115, 114, 47, 108, 111] := by decide
  have h15 : ro_prefix.length = 15 := rfl
  unfold path_begins_with at hp
  rw [h15] at hp
  simp only [Bool.and_eq_true, decide_eq_true_eq, beq_iff_eq] at hp
  have hall := (bytes_at_eq_iff path.data (cstr ro_prefix) 15).mp (hp.2.trans hb.symm)
  rw [← hb7, bytes_at_eq_iff]
  intro j hj
  exact hall j (by omega)

/-- The worker sends one flags response, cacheable, and nothing else. -/
theorem handle_open_worker_single_response (FWRITE : Nat) (os : OS) (msg : es_message_t) :
    ∃ mask, handle_open_worker FWRITE os msg = [Effect.es_respond_flags_result mask true] := by
  unfold handle_open_worker
  split_ifs
  · exact ⟨_, rfl⟩
  · exact ⟨_, rfl⟩
  · exact ⟨_, rfl⟩

/-- After an `open` or `read` failure the worker still sends its one response,
and the path test of the worker alone decides the mask. -/
theorem handle_open_worker_io_failure (FWRITE : Nat) (os : OS) (msg : es_message_t)
    (hio : os.open_rdonly msg.open_file.path.data < 0 ∨
      os.read (os.open_rdonly msg.open_file.path.data) sizeof_ptr = none) :
    handle_open_worker FWRITE os msg =
      [Effect.es_respond_flags_result
        (if bytes_at msg.open_file.path.data 7 = [47, 117, 115, 114, 47, 108, 111]
          then 0xffffffff &&& bnot32 FWRITE else 0xffffffff) true] := by
  unfold handle_open_worker
  rw [is_eicar_file_io_failure os msg.open_file hio]
  simp only [ro_prefix_test_iff, Bool.false_eq_true, if_false]
  split_ifs <;> rfl

/-- A file that is not content-matched and whose path does not start with the
7 bytes `/usr/lo` gets the full-allow mask. -/
theorem handle_open_worker_full_allow (FWRITE : Nat) (os : OS) (msg : es_message_t)
    (hclean : is_eicar_file os msg.open_file = false)
    (hpath : bytes_at msg.open_file.path.data 7 ≠ [47, 117, 115, 114, 47, 108, 111]) :
    handle_open_worker FWRITE os msg = [Effect.es_respond_flags_result 0xffffffff true] := by
  unfold handle_open_worker
  simp [hclean, ro_prefix_test_iff, hpath]

/-! ## Claims -/

/-- C2: for every event, the responses sent by `handle_event` together with
the block it enqueues, run to completion, number exactly one when the event
is of an auth kind (`AUTH_EXEC`, `AUTH_OPEN`, or an unrecognized kind with
action type auth) and exactly zero otherwise. -/
theorem handle_event_response_count (FWRITE : Nat) (os : OS) (msg : es_message_t) :
    (responses (run_to_completion FWRITE os (handle_event os msg))).length =
      if is_auth_kind msg = true then 1 else 0 := by
  unfold handle_event is_auth_kind run_to_completion
  cases hty : msg.event_type with
  | ES_EVENT_TYPE_AUTH_EXEC =>
    simp [handle_exec_responses]
  | ES_EVENT_TYPE_AUTH_OPEN =>
    obtain ⟨mask, hw⟩ := handle_open_worker_single_response FWRITE os msg
    simp [handle_open, open_block, hw, responses, Effect.is_response]
  | ES_EVENT_TYPE_NOTIFY_EXEC => simp [handle_notify_exec, responses, Effect.is_response]
  | ES_EVENT_TYPE_NOTIFY_FORK => simp [handle_notify_fork, responses, Effect.is_response]
  | ES_EVENT_TYPE_NOTIFY_EXIT => simp [handle_notify_exit, responses, Effect.is_response]
  | other tag =>
    by_cases ha : msg.action_type = .ES_ACTION_TYPE_AUTH <;>
      simp [ha, responses, Effect.is_response]

/-- C3, evaluated on the code: a readable file of declared size 68 whose
content is `X5O!P%@A` followed by 60 bytes `x` is matched by `is_eicar_file`,
although its first 68 bytes are not the EICAR test string. -/
theorem is_eicar_file_matches_eight_bytes :
    is_eicar_file (os_with_content short_match_content) (open_msg "/tmp/sample" 68).open_file
        = true ∧
      short_match_content.length = 68 ∧
      short_match_content.take eicar.length ≠ eicar := by
  decide

/-- C4: whenever `is_eicar_file` matches the file of an Open event,
`handle_open_worker` sends the single response `AccessMask = 0`,
`cacheable = true`, whatever the path is (in particular under
`/usr/local/bin/`). -/
theorem handle_open_worker_content_match (FWRITE : Nat) (os : OS) (msg : es_message_t)
    (hmatch : is_eicar_file os msg.open_file = true) :
    handle_open_worker FWRITE os msg = [Effect.es_respond_flags_result 0 true] := by
  unfold handle_open_worker
  simp [hmatch]

/-- Witness for C4: a matched file under `/usr/local/bin/`. -/
theorem handle_open_worker_content_match_witness :
    path_begins_with (open_msg "/usr/local/bin/eicar.com" 68).open_file.path ro_prefix = true ∧
      is_eicar_file (os_with_content eicar) (open_msg "/usr/local/bin/eicar.com" 68).open_file
        = true ∧
      handle_open_worker 2 (os_with_content eicar) (open_msg "/usr/local/bin/eicar.com" 68) =
        [Effect.es_respond_flags_result 0 true] :=
  ⟨by decide, by decide,
    handle_open_worker_content_match 2 (os_with_content eicar)
      (open_msg "/usr/local/bin/eicar.com" 68) (by decide)⟩

/-- C5, evaluated on the code: a readable file of declared size 8, which is
outside `[68, 128]`, holding `X5O!P%@A`, is matched by `is_eicar_file`. -/
theorem is_eicar_file_matches_small_file :
    ¬ ((eicar.length : Int) ≤ (open_msg "/tmp/small" 8).open_file.stat.st_size ∧
        (open_msg "/tmp/small" 8).open_file.stat.st_size ≤ eicar_max_length) ∧
      is_eicar_file (os_with_content (ascii "X5O!P%@A")) (open_msg "/tmp/small" 8).open_file
        = true := by
  decide

/-- C6: for every Open event on a readable file of declared size 68 whose
content is the EICAR test string, `is_eicar_file` returns true and the single
response is `AccessMask = 0`, `cacheable = true`, whatever the path is. -/
theorem handle_open_worker_eicar_file (FWRITE : Nat) (os : OS) (msg : es_message_t)
    (hsize : msg.open_file.stat.st_size = 68)
    (hcontent : readable_with_content os msg.open_file eicar) :
    is_eicar_file os msg.open_file = true ∧
      handle_open_worker FWRITE os msg = [Effect.es_respond_flags_result 0 true] := by
  have hmatch : is_eicar_file os msg.open_file = true := by
    rw [is_eicar_file_true_iff]
    obtain ⟨hfd, hread⟩ := hcontent
    refine ⟨by omega, hfd, eicar.take 8, hread 8, by decide, ?_⟩
    have hb : bytes_at (cstr eicar) 8 = [88, 53, 79, 33, 80, 37, 64, 65] := by decide
    rw [← hb, bytes_at_eq_iff]
    intro j hj
    have h8 : ((eicar.take 8).take 8).length = 8 := by decide
    unfold buf_after_read
    rw [h8, if_pos hj]
    interval_cases j <;> rfl
  refine ⟨hmatch, ?_⟩
  unfold handle_open_worker
  simp [hmatch]

/-- Witness for C6: the EICAR file at `/tmp/eicar.com`. -/
theorem handle_open_worker_eicar_file_witness :
    is_eicar_file (os_with_content eicar) (open_msg "/tmp/eicar.com" 68).open_file = true ∧
      handle_open_worker 2 (os_with_content eicar) (open_msg "/tmp/eicar.com" 68) =
        [Effect.es_respond_flags_result 0 true] :=
  handle_open_worker_eicar_file 2 (os_with_content eicar) (open_msg "/tmp/eicar.com" 68)
    (by decide) ⟨by decide, fun _ => rfl⟩

/-- C7: for every Open event whose path begins with `/usr/local/bin/` and
whose file is not content-matched, `handle_open_worker` sends the single
response `cacheable = true` with a mask that has no `FWRITE` bit and every
other bit: `mask AND FWRITE = 0` and `mask OR FWRITE = 0xffffffff`. -/
theorem handle_open_worker_protected_path (FWRITE : Nat) (os : OS) (msg : es_message_t)
    (hF : FWRITE < 2 ^ 32)
    (hpath : path_begins_with msg.open_file.path ro_prefix = true)
    (hclean : is_eicar_file os msg.open_file = false) :
    ∃ mask, handle_open_worker FWRITE os msg = [Effect.es_respond_flags_result mask true] ∧
      mask &&& FWRITE = 0 ∧ mask ||| FWRITE = 0xffffffff := by
  refine ⟨0xffffffff &&& bnot32 FWRITE, ?_, write_excluded_mask FWRITE hF⟩
  unfold handle_open_worker
  simp [hclean, ro_prefix_test_of_begins_with msg.open_file.path hpath]

/-- Witness for C7: `/usr/local/bin/tool`, an empty file, `FWRITE = 2`. -/
theorem handle_open_worker_protected_path_witness :
    ∃ mask, handle_open_worker 2 (os_with_content []) (open_msg "/usr/local/bin/tool" 0) =
        [Effect.es_respond_flags_result mask true] ∧
      mask &&& 2 = 0 ∧ mask ||| 2 = 0xffffffff :=
  handle_open_worker_protected_path 2 (os_with_content []) (open_msg "/usr/local/bin/tool" 0)
    (by decide) (by decide) (by decide)

/-- C8, evaluated on the code: `/usr/local/share/notes.txt` is not under
`/usr/local/bin/` and its (empty) file is not content-matched, yet
`handle_open_worker` answers with the write-excluded mask `0xfffffffd`
(`FWRITE = 2`), not with `0xffffffff`. -/
theorem handle_open_worker_restricts_unprotected_path :
    path_begins_with (open_msg "/usr/local/share/notes.txt" 0).open_file.path ro_prefix = false ∧
      is_eicar_file (os_with_content []) (open_msg "/usr/local/share/notes.txt" 0).open_file
        = false ∧
      handle_open_worker 2 (os_with_content []) (open_msg "/usr/local/share/notes.txt" 0) =
        [Effect.es_respond_flags_result 0xfffffffd true] := by
  decide

/-- C9: for every event whose kind is none of the five recognized kinds and
whose action type is auth, `handle_event` itself sends exactly the response
`ALLOW` with `cacheable = true` and enqueues nothing, whatever the operating
system would answer. -/
theorem handle_event_unrecognized_auth (os : OS) (msg : es_message_t)
    (h1 : msg.event_type ≠ .ES_EVENT_TYPE_AUTH_EXEC)
    (h2 : msg.event_type ≠ .ES_EVENT_TYPE_AUTH_OPEN)
    (h3 : msg.event_type ≠ .ES_EVENT_TYPE_NOTIFY_EXEC)
    (h4 : msg.event_type ≠ .ES_EVENT_TYPE_NOTIFY_FORK)
    (h5 : msg.event_type ≠ .ES_EVENT_TYPE_NOTIFY_EXIT)
    (hauth : msg.action_type = .ES_ACTION_TYPE_AUTH) :
    (handle_event os msg).effects =
        [Effect.es_respond_auth_result .ES_AUTH_RESULT_ALLOW true] ∧
      (handle_event os msg).queue = [] := by
  unfold handle_event
  cases hty : msg.event_type with
  | ES_EVENT_TYPE_AUTH_EXEC => exact absurd hty h1
  | ES_EVENT_TYPE_AUTH_OPEN => exact absurd hty h2
  | ES_EVENT_TYPE_NOTIFY_EXEC => exact absurd hty h3
  | ES_EVENT_TYPE_NOTIFY_FORK => exact absurd hty h4
  | ES_EVENT_TYPE_NOTIFY_EXIT => exact absurd hty h5
  | other tag => simp [hauth]

/-- Witness for C9: kind `other 42`, action type auth. -/
theorem handle_event_unrecognized_auth_witness :
    (handle_event os_open_fails unrecognized_auth_msg).effects =
        [Effect.es_respond_auth_result .ES_AUTH_RESULT_ALLOW true] ∧
      (handle_event os_open_fails unrecognized_auth_msg).queue = [] :=
  handle_event_unrecognized_auth os_open_fails unrecognized_auth_msg
    (by decide) (by decide) (by decide) (by decide) (by decide) (by decide)

/-- C10, evaluated on the code: the file at `/usr/lost/notes.txt` cannot be
opened; `is_eicar_file` returns false and one response is sent, but for this
path, which is not under `/usr/local/bin/`, it carries the write-excluded mask
`0xfffffffd` (`FWRITE = 2`), not the full-allow mask. -/
theorem handle_open_worker_open_failure_unprotected_path :
    os_open_fails.open_rdonly (open_msg "/usr/lost/notes.txt" 100).open_file.path.data < 0 ∧
      is_eicar_file os_open_fails (open_msg "/usr/lost/notes.txt" 100).open_file = false ∧
      path_begins_with (open_msg "/usr/lost/notes.txt" 100).open_file.path ro_prefix = false ∧
      responses (run_to_completion 2 os_open_fails
          (handle_event os_open_fails (open_msg "/usr/lost/notes.txt" 100))) =
        [Effect.es_respond_flags_result 0xfffffffd true] := by
  decide

end Extension
